import Mathlib

/-!
Shallow embedding of the face-comparison core of the repository
(`src/utils/AWSRekognition.ts`): the `AWSRekognitionClient` wrapper, its
response normalizer `processResult`, and the three comparison operations
`compareFacesByS3Reference`, `compareFacesByBytes` and `compareFacesMix`.

Modelling conventions:
- JavaScript numbers carrying similarity scores and thresholds are modelled
  as rationals (`ℚ`); the code only compares them with `0` and passes them
  through, so no floating-point rounding is involved in any claim.
- Optional / possibly-`undefined` fields become `Option`.
- The opaque `ComparedFace` descriptor is a type parameter `α`: the code
  never inspects it, only passes it through.
- The AWS service call `rekognitionClient.send` is modelled as an explicit
  oracle `service : CompareFacesCommandInput → Except E (CompareFacesCommandOutput α)`;
  a thrown error is `Except.error`.  Each operation records the list of
  issued requests and the number of times the normalizer ran, so that
  "exactly one call" and "no normalization on error" are statable.
- `console.log` inside `processResult` is modelled by explicit state
  passing of a log list (`processResultLogged`).
-/

namespace FaceRekog

/-- The `QualityFilter` enumeration of the AWS SDK. -/
inductive QualityFilterValue where
  | NONE
  | AUTO
  | LOW
  | MEDIUM
  | HIGH
deriving DecidableEq, Repr

/-- An S3 object reference `{ Bucket?, Name? }` as used in the requests. -/
structure S3ObjectRef where
  Bucket : Option String
  Name : Option String
deriving DecidableEq, Repr

/-- One image slot of a `CompareFacesCommandInput`: either an S3 reference
or inline bytes (the code populates exactly one of the two). -/
structure ImageSpec where
  S3Object : Option S3ObjectRef := none
  Bytes : Option (List Nat) := none
deriving DecidableEq, Repr

/-- The request the client builds and sends (`CompareFacesCommandInput`). -/
structure CompareFacesCommandInput where
  QualityFilter : QualityFilterValue
  SourceImage : ImageSpec
  TargetImage : ImageSpec
  SimilarityThreshold : ℚ
deriving DecidableEq, Repr

/-- One entry of the service's `FaceMatches` list: an optional similarity
score and an optional opaque face descriptor. -/
structure FaceMatchEntry (α : Type) where
  Similarity : Option ℚ := none
  Face : Option α := none
deriving DecidableEq, Repr

/-- The raw service response (`CompareFacesCommandOutput`).  Besides the
`FaceMatches` list it carries further data the normalizer never reads,
represented here by `UnmatchedFaces` and `SourceImageFace`. -/
structure CompareFacesCommandOutput (α : Type) where
  FaceMatches : Option (List (FaceMatchEntry α)) := none
  UnmatchedFaces : Option (List α) := none
  SourceImageFace : Option α := none
deriving DecidableEq, Repr

/-- The normalized result (`MatchResponse`). -/
structure MatchResponse (α : Type) where
  hasMatch : Bool
  score : ℚ
  mostMatchedFace : Option α := none
  rawResponse : CompareFacesCommandOutput α
deriving DecidableEq, Repr

/-- `AWSRekognitionClient.processResult`:

```ts
processResult(response) {
  console.log(response)
  if (response['FaceMatches'] && response['FaceMatches'].length) {
    const similarityScore = response['FaceMatches'][0].Similarity ?? 0
    return { hasMatch: similarityScore > 0, score: similarityScore,
             mostMatchedFace: response['FaceMatches'][0]['Face'], rawResponse: response }
  } else {
    return { hasMatch: false, score: 0, rawResponse: response }
  }
}
```

(The `console.log` side effect is carried by `processResultLogged` below.) -/
def processResult {α : Type} (response : CompareFacesCommandOutput α) :
    MatchResponse α :=
  match response.FaceMatches with
  | some (first :: _) =>
      let similarityScore : ℚ := first.Similarity.getD 0
      { hasMatch := decide (similarityScore > 0)
        score := similarityScore
        mostMatchedFace := first.Face
        rawResponse := response }
  | _ =>
      { hasMatch := false
        score := 0
        mostMatchedFace := none
        rawResponse := response }

/-- `processResult` with its `console.log(response)` side effect made
explicit: the console is a list of previously logged responses, and the
call appends the raw input to it before computing the pure result. -/
def processResultLogged {α : Type}
    (consoleLog : List (CompareFacesCommandOutput α))
    (response : CompareFacesCommandOutput α) :
    MatchResponse α × List (CompareFacesCommandOutput α) :=
  (processResult response, consoleLog ++ [response])

/-- The environment variables the client reads when building requests. -/
structure EnvConfig where
  AWS_BUCKET_NAME : Option String
deriving DecidableEq, Repr

/-- The state of an `AWSRekognitionClient`: the constructor-supplied
similarity threshold and the process environment it reads. -/
structure AWSRekognitionClient where
  threshold : ℚ
  env : EnvConfig
deriving DecidableEq, Repr

/-- What one comparison operation did: which requests it sent to the
service, how many times the normalizer ran, and the outcome (a normalized
result, or the propagated service error). -/
structure RunResult (α E : Type) where
  calls : List CompareFacesCommandInput
  normalizerRuns : Nat
  outcome : Except E (MatchResponse α)

/-- The shared tail of all three operations:
`new CompareFacesCommand(input)`, `await this.rekognitionClient.send(...)`,
`return this.processResult(result)`.  If the send throws, the error
propagates and `processResult` never runs. -/
def sendCommand {α E : Type} (input : CompareFacesCommandInput)
    (service : CompareFacesCommandInput → Except E (CompareFacesCommandOutput α)) :
    RunResult α E :=
  match service input with
  | Except.ok result =>
      { calls := [input], normalizerRuns := 1
        outcome := Except.ok (processResult result) }
  | Except.error e =>
      { calls := [input], normalizerRuns := 0
        outcome := Except.error e }

/-- `AWSRekognitionClient.compareFacesByS3Reference`: both images are S3
references in the bucket `process.env.AWS_BUCKET_NAME`. -/
def compareFacesByS3Reference {α E : Type} (client : AWSRekognitionClient)
    (sourceReference targetReference : String)
    (service : CompareFacesCommandInput → Except E (CompareFacesCommandOutput α)) :
    RunResult α E :=
  let input : CompareFacesCommandInput :=
    { QualityFilter := QualityFilterValue.HIGH
      SourceImage :=
        { S3Object := some { Bucket := client.env.AWS_BUCKET_NAME
                             Name := some sourceReference } }
      TargetImage :=
        { S3Object := some { Bucket := client.env.AWS_BUCKET_NAME
                             Name := some targetReference } }
      SimilarityThreshold := client.threshold }
  sendCommand input service

/-- `AWSRekognitionClient.compareFacesByBytes`: both images inline bytes. -/
def compareFacesByBytes {α E : Type} (client : AWSRekognitionClient)
    (sourceBytes referenceBytes : List Nat)
    (service : CompareFacesCommandInput → Except E (CompareFacesCommandOutput α)) :
    RunResult α E :=
  let input : CompareFacesCommandInput :=
    { QualityFilter := QualityFilterValue.HIGH
      SourceImage := { Bytes := some sourceBytes }
      TargetImage := { Bytes := some referenceBytes }
      SimilarityThreshold := client.threshold }
  sendCommand input service

/-- `AWSRekognitionClient.compareFacesMix`: source as an S3 reference,
target as inline bytes. -/
def compareFacesMix {α E : Type} (client : AWSRekognitionClient)
    (sourceReference : String) (referenceBytes : List Nat)
    (service : CompareFacesCommandInput → Except E (CompareFacesCommandOutput α)) :
    RunResult α E :=
  let input : CompareFacesCommandInput :=
    { QualityFilter := QualityFilterValue.HIGH
      SourceImage :=
        { S3Object := some { Bucket := client.env.AWS_BUCKET_NAME
                             Name := some sourceReference } }
      TargetImage := { Bytes := some referenceBytes }
      SimilarityThreshold := client.threshold }
  sendCommand input service

/-- Concrete response used in examples and witnesses: spec Scenario A,
one candidate at similarity 99 with face `"123"`. -/
def scenarioAResponse : CompareFacesCommandOutput String :=
  { FaceMatches := some [{ Similarity := some 99, Face := some "123" }] }

/-- Concrete response: spec Scenario B, no `FaceMatches` field at all. -/
def scenarioBResponse : CompareFacesCommandOutput String := {}

/-- Concrete response with one candidate at similarity exactly 0 whose
face descriptor is present. -/
def zeroSimilarityResponse : CompareFacesCommandOutput String :=
  { FaceMatches := some [{ Similarity := some 0, Face := some "123" }] }

/-- Concrete response whose single candidate has no similarity field but a
present face descriptor. -/
def noSimilarityResponse : CompareFacesCommandOutput String :=
  { FaceMatches := some [{ Similarity := none, Face := some "f" }] }

/-- Concrete response with `FaceMatches` present but empty, and further
unrelated response data populated. -/
def emptyMatchesResponse : CompareFacesCommandOutput String :=
  { FaceMatches := some [], UnmatchedFaces := some ["u"] }

/-- Concrete client for witnesses: threshold 90, bucket `"bucket"`. -/
def demoClient : AWSRekognitionClient :=
  { threshold := 90, env := { AWS_BUCKET_NAME := some "bucket" } }

/-- Concrete service oracle that always fails with a network error. -/
def failingService :
    CompareFacesCommandInput → Except String (CompareFacesCommandOutput String) :=
  fun _ => Except.error "network error"

/-! ## Helper lemmas about `sendCommand` -/

theorem sendCommand_calls {α E : Type} (input : CompareFacesCommandInput)
    (service : CompareFacesCommandInput → Except E (CompareFacesCommandOutput α)) :
    (sendCommand input service).calls = [input] := by
  unfold sendCommand
  cases service input <;> rfl

theorem sendCommand_error {α E : Type} (input : CompareFacesCommandInput)
    (service : CompareFacesCommandInput → Except E (CompareFacesCommandOutput α))
    (e : E) (h : service input = Except.error e) :
    (sendCommand input service).outcome = Except.error e ∧
    (sendCommand input service).normalizerRuns = 0 := by
  unfold sendCommand
  rw [h]
  exact ⟨rfl, rfl⟩

/-! ## Claim theorems -/

/-- C1 (counterexample): on a response whose single candidate has
similarity exactly 0 and a present face descriptor, `processResult` returns
`hasMatch = false` and yet `mostMatchedFace` present — so "`mostMatchedFace`
present iff `hasMatch`" is false on the code. -/
theorem processResult_face_present_despite_no_match :
    (processResult zeroSimilarityResponse).hasMatch = false ∧
    (processResult zeroSimilarityResponse).mostMatchedFace = some "123" ∧
    ¬ ((processResult zeroSimilarityResponse).mostMatchedFace.isSome =
        (processResult zeroSimilarityResponse).hasMatch) := by
  refine ⟨rfl, rfl, ?_⟩
  decide

/-- C1 (amended): `mostMatchedFace` is present iff the candidate list is
non-empty and the top candidate's face field is present, regardless of
`hasMatch`; in particular at top similarity exactly 0 the face is still
returned when present. -/
theorem processResult_mostMatchedFace_iff {α : Type}
    (response : CompareFacesCommandOutput α) :
    (processResult response).mostMatchedFace.isSome = true ↔
      ∃ first rest, response.FaceMatches = some (first :: rest) ∧
        first.Face.isSome = true := by
  rcases h : response.FaceMatches with _ | ⟨_ | ⟨first, rest⟩⟩ <;>
    simp [processResult, h]

/-- C2: `processResult` returns `hasMatch = true` iff `FaceMatches` is
present and non-empty and the first candidate's similarity (defaulted to 0
when absent) is strictly greater than 0. -/
theorem processResult_hasMatch_iff {α : Type}
    (response : CompareFacesCommandOutput α) :
    (processResult response).hasMatch = true ↔
      ∃ first rest, response.FaceMatches = some (first :: rest) ∧
        0 < first.Similarity.getD 0 := by
  rcases h : response.FaceMatches with _ | ⟨_ | ⟨first, rest⟩⟩ <;>
    simp [processResult, h]

/-- C3: on a non-empty candidate list whose top similarity `s` is strictly
positive, `processResult` returns `hasMatch = true`, `score = s`, and
`mostMatchedFace` equal to the top candidate's face descriptor. -/
theorem processResult_positive_match {α : Type}
    (response : CompareFacesCommandOutput α)
    (first : FaceMatchEntry α) (rest : List (FaceMatchEntry α)) (s : ℚ)
    (h : response.FaceMatches = some (first :: rest))
    (hsim : first.Similarity = some s) (hpos : 0 < s) :
    (processResult response).hasMatch = true ∧
    (processResult response).score = s ∧
    (processResult response).mostMatchedFace = first.Face := by
  simp [processResult, h, hsim, hpos]

theorem processResult_positive_match_witness :
    (processResult scenarioAResponse).hasMatch = true ∧
    (processResult scenarioAResponse).score = 99 ∧
    (processResult scenarioAResponse).mostMatchedFace = some "123" :=
  processResult_positive_match scenarioAResponse
    { Similarity := some 99, Face := some "123" } [] 99 rfl rfl (by norm_num)

/-- C4: on an empty candidate list and on an absent `FaceMatches` field
alike, `processResult` returns `hasMatch = false`, `score = 0` and no
`mostMatchedFace`. -/
theorem processResult_empty_or_absent {α : Type}
    (response : CompareFacesCommandOutput α)
    (h : response.FaceMatches = none ∨ response.FaceMatches = some []) :
    (processResult response).hasMatch = false ∧
    (processResult response).score = 0 ∧
    (processResult response).mostMatchedFace = none := by
  rcases h with h | h <;> simp [processResult, h]

theorem processResult_empty_or_absent_witness :
    ((processResult scenarioBResponse).hasMatch = false ∧
     (processResult scenarioBResponse).score = 0 ∧
     (processResult scenarioBResponse).mostMatchedFace = none) ∧
    ((processResult emptyMatchesResponse).hasMatch = false ∧
     (processResult emptyMatchesResponse).score = 0 ∧
     (processResult emptyMatchesResponse).mostMatchedFace = none) :=
  ⟨processResult_empty_or_absent scenarioBResponse (Or.inl rfl),
   processResult_empty_or_absent emptyMatchesResponse (Or.inr rfl)⟩

/-- C5: `processResult` is pure modulo logging: its value never depends on
the console state, and a second call on the same input (with the console
state left by the first call) returns the identical result. -/
theorem processResultLogged_deterministic {α : Type}
    (consoleLog : List (CompareFacesCommandOutput α))
    (response : CompareFacesCommandOutput α) :
    (processResultLogged (processResultLogged consoleLog response).2 response).1 =
      (processResultLogged consoleLog response).1 ∧
    (processResultLogged consoleLog response).1 = processResult response :=
  ⟨rfl, rfl⟩

/-- C6: every request any of the three operations sends carries the
constructor-fixed `SimilarityThreshold` and the fixed quality filter
`HIGH`, whatever the per-call arguments are. -/
theorem compare_requests_fixed_threshold_and_quality {α E : Type}
    (client : AWSRekognitionClient)
    (sourceReference targetReference : String)
    (sourceBytes referenceBytes : List Nat)
    (service : CompareFacesCommandInput → Except E (CompareFacesCommandOutput α)) :
    ((compareFacesByS3Reference client sourceReference targetReference
        service).calls.map
      (fun i => (i.SimilarityThreshold, i.QualityFilter)) =
        [(client.threshold, QualityFilterValue.HIGH)]) ∧
    ((compareFacesByBytes client sourceBytes referenceBytes service).calls.map
      (fun i => (i.SimilarityThreshold, i.QualityFilter)) =
        [(client.threshold, QualityFilterValue.HIGH)]) ∧
    ((compareFacesMix client sourceReference referenceBytes service).calls.map
      (fun i => (i.SimilarityThreshold, i.QualityFilter)) =
        [(client.threshold, QualityFilterValue.HIGH)]) := by
  refine ⟨?_, ?_, ?_⟩ <;>
    simp [compareFacesByS3Reference, compareFacesByBytes, compareFacesMix,
      sendCommand_calls]

/-- C7: `compareFacesMix` issues exactly one service call, whose source
image is an object-store reference (env bucket + given key) and whose
target image is inline bytes. -/
theorem compareFacesMix_request_shape {α E : Type}
    (client : AWSRekognitionClient)
    (sourceReference : String) (referenceBytes : List Nat)
    (service : CompareFacesCommandInput → Except E (CompareFacesCommandOutput α)) :
    (compareFacesMix client sourceReference referenceBytes
        service).calls.length = 1 ∧
    (compareFacesMix client sourceReference referenceBytes service).calls.map
        (fun i => (i.SourceImage, i.TargetImage)) =
      [({ S3Object := some { Bucket := client.env.AWS_BUCKET_NAME
                             Name := some sourceReference }
          Bytes := none },
        { S3Object := none, Bytes := some referenceBytes })] := by
  refine ⟨?_, ?_⟩ <;> simp [compareFacesMix, sendCommand_calls]

/-- C8: for each of the three operations separately, if the service fails
the request that operation issues with an error `e`, then that operation's
outcome is that same error and the normalizer runs zero times — regardless
of how the service behaves on any other request. -/
theorem compare_error_propagates {α E : Type}
    (client : AWSRekognitionClient)
    (sourceReference targetReference : String)
    (sourceBytes referenceBytes : List Nat)
    (service : CompareFacesCommandInput → Except E (CompareFacesCommandOutput α))
    (e : E) :
    ((∀ i ∈ (compareFacesByS3Reference client sourceReference
        targetReference service).calls, service i = Except.error e) →
      (compareFacesByS3Reference client sourceReference targetReference
        service).outcome = Except.error e ∧
      (compareFacesByS3Reference client sourceReference targetReference
        service).normalizerRuns = 0) ∧
    ((∀ i ∈ (compareFacesByBytes client sourceBytes referenceBytes
        service).calls, service i = Except.error e) →
      (compareFacesByBytes client sourceBytes referenceBytes
        service).outcome = Except.error e ∧
      (compareFacesByBytes client sourceBytes referenceBytes
        service).normalizerRuns = 0) ∧
    ((∀ i ∈ (compareFacesMix client sourceReference referenceBytes
        service).calls, service i = Except.error e) →
      (compareFacesMix client sourceReference referenceBytes
        service).outcome = Except.error e ∧
      (compareFacesMix client sourceReference referenceBytes
        service).normalizerRuns = 0) := by
  simp only [compareFacesByS3Reference, compareFacesByBytes, compareFacesMix]
  refine ⟨fun h => ?_, fun h => ?_, fun h => ?_⟩ <;>
    exact sendCommand_error _ service e (h _ (by simp [sendCommand_calls]))

theorem compare_error_propagates_witness :
    ((compareFacesByS3Reference demoClient "src" "tgt"
        failingService).outcome = Except.error "network error" ∧
     (compareFacesByS3Reference demoClient "src" "tgt"
        failingService).normalizerRuns = 0) ∧
    ((compareFacesByBytes demoClient [0] [1]
        failingService).outcome = Except.error "network error" ∧
     (compareFacesByBytes demoClient [0] [1]
        failingService).normalizerRuns = 0) ∧
    ((compareFacesMix demoClient "src" [1]
        failingService).outcome = Except.error "network error" ∧
     (compareFacesMix demoClient "src" [1]
        failingService).normalizerRuns = 0) :=
  ⟨(compare_error_propagates demoClient "src" "tgt" [0] [1] failingService
      "network error").1 (fun _ _ => rfl),
   (compare_error_propagates demoClient "src" "tgt" [0] [1] failingService
      "network error").2.1 (fun _ _ => rfl),
   (compare_error_propagates demoClient "src" "tgt" [0] [1] failingService
      "network error").2.2 (fun _ _ => rfl)⟩

/-- C9: on a non-empty candidate list whose top candidate has no
similarity field, `processResult` treats the similarity as 0: it returns
`hasMatch = false` and `score = 0`, yet still sets `mostMatchedFace` to
the top candidate's face descriptor. -/
theorem processResult_missing_similarity {α : Type}
    (response : CompareFacesCommandOutput α)
    (first : FaceMatchEntry α) (rest : List (FaceMatchEntry α))
    (h : response.FaceMatches = some (first :: rest))
    (hsim : first.Similarity = none) :
    (processResult response).hasMatch = false ∧
    (processResult response).score = 0 ∧
    (processResult response).mostMatchedFace = first.Face := by
  simp [processResult, h, hsim]

theorem processResult_missing_similarity_witness :
    (processResult noSimilarityResponse).hasMatch = false ∧
    (processResult noSimilarityResponse).score = 0 ∧
    (processResult noSimilarityResponse).mostMatchedFace = some "f" :=
  processResult_missing_similarity noSimilarityResponse
    { Similarity := none, Face := some "f" } [] rfl rfl

/-- C10: apart from the retained raw response, the output of
`processResult` depends only on the first candidate: two responses with
the same first candidate and arbitrary differing tails and other fields
yield the same `hasMatch`, `score` and `mostMatchedFace`. -/
theorem processResult_head_only {α : Type}
    (r1 r2 : CompareFacesCommandOutput α)
    (first : FaceMatchEntry α) (t1 t2 : List (FaceMatchEntry α))
    (h1 : r1.FaceMatches = some (first :: t1))
    (h2 : r2.FaceMatches = some (first :: t2)) :
    (processResult r1).hasMatch = (processResult r2).hasMatch ∧
    (processResult r1).score = (processResult r2).score ∧
    (processResult r1).mostMatchedFace = (processResult r2).mostMatchedFace := by
  simp [processResult, h1, h2]

/-- Concrete pair for the C10 witness: same head, different tails and
different unrelated fields. -/
def headOnlyLeft : CompareFacesCommandOutput String :=
  { FaceMatches := some [{ Similarity := some 97, Face := some "abc" }] }

def headOnlyRight : CompareFacesCommandOutput String :=
  { FaceMatches := some [{ Similarity := some 97, Face := some "abc" },
                         { Similarity := some 12, Face := some "zzz" }]
    UnmatchedFaces := some ["u1", "u2"]
    SourceImageFace := some "s" }

theorem processResult_head_only_witness :
    (processResult headOnlyLeft).hasMatch = (processResult headOnlyRight).hasMatch ∧
    (processResult headOnlyLeft).score = (processResult headOnlyRight).score ∧
    (processResult headOnlyLeft).mostMatchedFace =
      (processResult headOnlyRight).mostMatchedFace :=
  processResult_head_only headOnlyLeft headOnlyRight
    { Similarity := some 97, Face := some "abc" } []
    [{ Similarity := some 12, Face := some "zzz" }] rfl rfl

end FaceRekog
